import Mathlib

/-!
Shallow embedding of the recovery-settings and voice-composer view logic of
the element-web slice, together with proofs of the specification claims.

Conventions of the embedding:
- asynchronous collaborator calls are modelled by passing their results in as
  explicit arguments (the code awaits them sequentially, so a pure function of
  the results is faithful);
- side effects (dialogs shown, callbacks invoked, store requests, log lines)
  are recorded in explicit result structures or traces;
- a JavaScript value that may be `null`/`undefined` becomes an `Option`.
-/

namespace ElementWeb

/-! ## RecoveryPanel.tsx -/

/-- States of the recovery panel, from the `State` type of `RecoveryPanel.tsx`. -/
inductive RecoveryState where
  | loading
  | missing_backup
  | secrets_not_cached
  | good
  deriving DecidableEq, Repr

/-- The `privateKeysCachedLocally` field of the cross-signing status returned by
the crypto collaborator. -/
structure PrivateKeysCachedLocally where
  masterKey : Bool
  selfSigningKey : Bool
  userSigningKey : Bool
  deriving DecidableEq, Repr

/-- The part of `getCrossSigningStatus()` that `checkEncryption` reads. -/
structure CrossSigningStatus where
  privateKeysCachedLocally : PrivateKeysCachedLocally
  deriving DecidableEq, Repr

/-- The results the crypto collaborator would return to the two probes made by
`checkEncryption`. `sessionBackupPrivateKey = none` models a `null` return of
`getSessionBackupPrivateKey()`; `some bytes` models a `Uint8Array` (which is
always truthy in JavaScript, so only `null`-ness matters to `Boolean(...)`). -/
structure CryptoApi where
  sessionBackupPrivateKey : Option (List Nat)
  crossSigningStatus : CrossSigningStatus
  deriving DecidableEq, Repr

/-- The external calls `checkEncryption` can make, in the order it makes them. -/
inductive CryptoCall where
  | getSessionBackupPrivateKey
  | getCrossSigningStatus
  deriving DecidableEq, Repr

/-- Embedding of `checkEncryption` in `RecoveryPanel.tsx` (lines 48-62).
Returns the state it sets (or `none` when it returns without calling
`setState`) together with the list of crypto calls it performed. The argument
is `none` when `matrixClient.getCrypto()` returns no crypto collaborator. -/
def checkEncryption (crypto : Option CryptoApi) : Option RecoveryState × List CryptoCall :=
  match crypto with
  | none => (none, [])
  | some c =>
    let hasBackup := c.sessionBackupPrivateKey.isSome
    if !hasBackup then
      (some RecoveryState.missing_backup, [CryptoCall.getSessionBackupPrivateKey])
    else
      let cachedSecrets := c.crossSigningStatus.privateKeysCachedLocally
      let secretsOk := cachedSecrets.masterKey && cachedSecrets.selfSigningKey &&
        cachedSecrets.userSigningKey
      if !secretsOk then
        (some RecoveryState.secrets_not_cached,
          [CryptoCall.getSessionBackupPrivateKey, CryptoCall.getCrossSigningStatus])
      else
        (some RecoveryState.good,
          [CryptoCall.getSessionBackupPrivateKey, CryptoCall.getCrossSigningStatus])

/-- The panel state after mounting: the component starts in `loading` and the
effect runs `checkEncryption`; if the check sets no state, `loading` remains. -/
def recoveryPanelStateAfterMount (crypto : Option CryptoApi) : RecoveryState :=
  (checkEncryption crypto).1.getD RecoveryState.loading

/-! ## ChangeRecoveryKey.tsx -/

/-- States of the recovery-key wizard, from the `State` type of
`ChangeRecoveryKey.tsx`. -/
inductive WizardState where
  | inform_user
  | save_key_setup_flow
  | save_key_change_flow
  | confirm
  deriving DecidableEq, Repr

/-- Embedding of `useState<State>(isSetupFlow ? "inform_user" : "save_key_change_flow")`
in `ChangeRecoveryKey` (line 65). -/
def initialWizardState (isSetupFlow : Bool) : WizardState :=
  if isSetupFlow then WizardState.inform_user else WizardState.save_key_change_flow

/-- Actions the confirm-state submit handler can perform, in order:
the `bootstrapSecretStorage` call (wrapped in `withSecretStorageKeyCache`),
the `logger.error` line of the catch block, and the `onFinish` callback. -/
inductive SubmitAction where
  | bootstrapSecretStorage
  | logError
  | callOnFinish
  deriving DecidableEq, Repr

/-- Embedding of the `onSubmit` closure passed to `KeyForm` in
`ChangeRecoveryKey` (lines 102-120): the trace of actions it performs, as a
function of whether `matrixClient.getCrypto()` yields a collaborator and
whether the awaited `bootstrapSecretStorage` call succeeds. -/
def confirmSubmitTrace (cryptoAvailable bootstrapSucceeds : Bool) : List SubmitAction :=
  if !cryptoAvailable then
    [SubmitAction.callOnFinish]
  else if bootstrapSucceeds then
    [SubmitAction.bootstrapSecretStorage, SubmitAction.callOnFinish]
  else
    [SubmitAction.bootstrapSecretStorage, SubmitAction.logError]

/-- User events the rendered wizard screens can deliver: the continue button of
the information or key panels, and a submit of the confirm form (carrying the
collaborator availability and bootstrap outcome at that moment). -/
inductive WizardEvent where
  | continueClick
  | submit (cryptoAvailable : Bool) (bootstrapSucceeds : Bool)
  deriving DecidableEq, Repr

/-- One step of the wizard: the handlers wired up per state in
`ChangeRecoveryKey` (lines 77-123). `inform_user`'s continue sets
`save_key_setup_flow`; the two save-key panels' continue sets `confirm`; the
confirm form's submit runs the submit handler, which never calls `setState`.
Events with no handler in the current state leave it unchanged. -/
def wizardStep (s : WizardState) (e : WizardEvent) : WizardState × List SubmitAction :=
  match s, e with
  | WizardState.inform_user, WizardEvent.continueClick => (WizardState.save_key_setup_flow, [])
  | WizardState.save_key_setup_flow, WizardEvent.continueClick => (WizardState.confirm, [])
  | WizardState.save_key_change_flow, WizardEvent.continueClick => (WizardState.confirm, [])
  | WizardState.confirm, WizardEvent.submit ca bs => (WizardState.confirm, confirmSubmitTrace ca bs)
  | s, _ => (s, [])

/-- The wizard component's per-activation data: the reactive state plus the
generated recovery key held by `useAsyncMemo` and a count of how many times
`createRecoveryKeyFromPassphrase` has been invoked during the activation. -/
structure WizardComponent where
  state : WizardState
  recoveryKey : String
  generateKeyCalls : Nat
  deriving DecidableEq, Repr

/-- Modelled from the spec: `useAsyncMemo` (its source lives outside this
slice, in `hooks/useAsyncMemo`) with an empty dependency list runs its
callback once per activation of the component and caches the resolved value
across re-renders. Activation therefore calls
`createRecoveryKeyFromPassphrase` exactly once, yielding `generatedKey`, and
starts in the mode-dependent initial state. -/
def activateWizard (isSetupFlow : Bool) (generatedKey : String) : WizardComponent :=
  { state := initialWizardState isSetupFlow
    recoveryKey := generatedKey
    generateKeyCalls := 1 }

/-- A step of the whole component: the reactive state moves by `wizardStep`;
no handler touches the memoised key or generates a new one. -/
def wizardComponentStep (c : WizardComponent) (e : WizardEvent) : WizardComponent :=
  { c with state := (wizardStep c.state e).1 }

/-- Embedding of JavaScript `String.prototype.trim`: drop whitespace from both
ends of the string. (Defined structurally on the character list so that it
evaluates by kernel reduction; the whitespace predicate is the ASCII subset,
which is all the claims exercise.) -/
def jsTrim (s : String) : String :=
  ⟨((s.data.dropWhile Char.isWhitespace).reverse.dropWhile Char.isWhitespace).reverse⟩

/-- Embedding of the validity check in `KeyForm`'s `onChange` handler
(`ChangeRecoveryKey.tsx` line 305): `filledKey.trim() === recoveryKey`. -/
def keyFormIsKeyValid (filledKey recoveryKey : String) : Bool :=
  jsTrim filledKey == recoveryKey

/-- Embedding of `disabled={!isKeyValid}` on the finish button (line 317),
where `isKeyValid` is the `useState<boolean>()` value: `none` before any
change event (JavaScript `undefined`, falsy), `some b` afterwards. -/
def keyFormSubmitDisabled (isKeyValid : Option Bool) : Bool :=
  !(isKeyValid.getD false)

/-- Disabled-state of the submit control after the user input `filledKey` has
been processed by the `onChange` handler. -/
def keyFormSubmitDisabledAfterInput (filledKey recoveryKey : String) : Bool :=
  keyFormSubmitDisabled (some (keyFormIsKeyValid filledKey recoveryKey))

/-! ## VoiceRecordComposerTile.tsx -/

/-- Outcome of `CallMediaHandler.getDevices()` as observed by
`onRecordStartEndClick`: the call may throw, or return a map whose
`audioinput` entry yields the given length. `got none` models a nullish
`devices` object or a missing `audioinput` key (so `devices?.['audioinput']?.length`
is `undefined`); `got (some n)` models an `audioinput` list of length `n`. -/
inductive DevicesOutcome where
  | threw
  | got (audioInputLength : Option Nat)
  deriving DecidableEq, Repr

/-- The two error dialogs `onRecordStartEndClick` can open. -/
inductive DialogKind where
  | unableToAccessMicrophone
  | noMicrophoneFound
  deriving DecidableEq, Repr

/-- Observable effects of one click on the record/stop control. -/
structure RecordClickResult where
  stoppedExistingRecorder : Bool
  dialog : Option DialogKind
  startRecordingRequested : Bool
  recorderSet : Bool
  disposeRequested : Bool
  deriving DecidableEq, Repr

/-- Embedding of `onRecordStartEndClick` in `VoiceRecordComposerTile.tsx`
(lines 160-218). `hasRecorder` is whether `this.state.recorder` is set;
`startSucceeds` is whether `VoiceRecordingStore.instance.startRecording()`
followed by `recorder.start()` completes without throwing. -/
def onRecordStartEndClick (hasRecorder : Bool) (devices : DevicesOutcome)
    (startSucceeds : Bool) : RecordClickResult :=
  if hasRecorder then
    { stoppedExistingRecorder := true, dialog := none, startRecordingRequested := false
      recorderSet := false, disposeRequested := false }
  else
    match devices with
    | DevicesOutcome.threw =>
      { stoppedExistingRecorder := false, dialog := some DialogKind.unableToAccessMicrophone
        startRecordingRequested := false, recorderSet := false, disposeRequested := false }
    | DevicesOutcome.got len =>
      if len.getD 0 = 0 then
        { stoppedExistingRecorder := false, dialog := some DialogKind.noMicrophoneFound
          startRecordingRequested := false, recorderSet := false, disposeRequested := false }
      else if startSucceeds then
        { stoppedExistingRecorder := false, dialog := none, startRecordingRequested := true
          recorderSet := true, disposeRequested := false }
      else
        { stoppedExistingRecorder := false, dialog := some DialogKind.unableToAccessMicrophone
          startRecordingRequested := true, recorderSet := false, disposeRequested := true }

/-- Operations performed by `send` (lines 111-147), in program order. -/
inductive SendOp where
  | stopRecorder
  | uploadMedia
  | sendMessage
  | disposeRecording
  deriving DecidableEq, Repr

/-- Embedding of `send` in `VoiceRecordComposerTile.tsx` as the trace of
operations it performs. With no recorder it throws before doing anything.
`stopSucceeds` and `uploadSucceeds` are whether the two awaited recorder calls
resolve; a rejection propagates out of `send` and cuts the trace short.
`sendMessage` itself is not awaited, so once the upload resolves the message
send and the disposal both happen. -/
def sendTrace (hasRecorder stopSucceeds uploadSucceeds : Bool) : List SendOp :=
  if !hasRecorder then []
  else if !stopSucceeds then [SendOp.stopRecorder]
  else if !uploadSucceeds then [SendOp.stopRecorder, SendOp.uploadMedia]
  else [SendOp.stopRecorder, SendOp.uploadMedia, SendOp.sendMessage, SendOp.disposeRecording]

/-- The non-reactive instance fields of `VoiceRecordComposerTile` that drive
update coalescing, plus a count of queued animation-frame callbacks and a log
of the `(waveform, seconds)` pairs each `setState` flush read (the rendered
`relHeights` are a pure function of the flushed waveform). The waveform sample
type `W` and the time type `T` are parameters: the coalescing logic never
inspects them. -/
structure VoiceTileBuffer (W T : Type) where
  waveform : List W
  seconds : T
  scheduledAnimationFrame : Bool
  pendingFrames : Nat
  flushedStates : List (List W × T)
  deriving DecidableEq, Repr

/-- Embedding of `onRecordingUpdate` (lines 82-108): store the incoming
waveform and time in the instance fields, then — unless a flush is already
scheduled — schedule one animation-frame callback and set the flag. -/
def onRecordingUpdate {W T : Type} (s : VoiceTileBuffer W T) (w : List W) (t : T) :
    VoiceTileBuffer W T :=
  let s1 := { s with waveform := w, seconds := t }
  if s1.scheduledAnimationFrame then s1
  else { s1 with scheduledAnimationFrame := true, pendingFrames := s1.pendingFrames + 1 }

/-- One animation-frame boundary: if a callback is queued it runs, reading the
current instance fields into a `setState` flush and clearing the flag;
otherwise nothing happens. -/
def fireAnimationFrame {W T : Type} (s : VoiceTileBuffer W T) : VoiceTileBuffer W T :=
  if s.pendingFrames = 0 then s
  else
    { s with
      pendingFrames := s.pendingFrames - 1
      flushedStates := s.flushedStates ++ [(s.waveform, s.seconds)]
      scheduledAnimationFrame := false }

/-- A burst of recording updates delivered in sequence. -/
def applyUpdates {W T : Type} (s : VoiceTileBuffer W T) (ups : List (List W × T)) :
    VoiceTileBuffer W T :=
  ups.foldl (fun st u => onRecordingUpdate st u.1 u.2) s

/-! ## Claim theorems -/

/-- C1: the RecoveryPanel status check resolves each combination of the two
crypto probe results to exactly the specified state: a `null` backup key
yields `missing_backup` without consulting `getCrossSigningStatus`; a present
backup key with any of the three cross-signing keys uncached yields
`secrets_not_cached`; a present backup key with all three cached yields
`good`. -/
theorem recovery_status_resolution (c : CryptoApi) :
    ((checkEncryption (some c)).1 = some RecoveryState.missing_backup ↔
      c.sessionBackupPrivateKey = none) ∧
    (c.sessionBackupPrivateKey = none →
      (checkEncryption (some c)).2 = [CryptoCall.getSessionBackupPrivateKey]) ∧
    ((checkEncryption (some c)).1 = some RecoveryState.secrets_not_cached ↔
      c.sessionBackupPrivateKey.isSome = true ∧
      (c.crossSigningStatus.privateKeysCachedLocally.masterKey &&
        c.crossSigningStatus.privateKeysCachedLocally.selfSigningKey &&
        c.crossSigningStatus.privateKeysCachedLocally.userSigningKey) = false) ∧
    ((checkEncryption (some c)).1 = some RecoveryState.good ↔
      c.sessionBackupPrivateKey.isSome = true ∧
      c.crossSigningStatus.privateKeysCachedLocally.masterKey = true ∧
      c.crossSigningStatus.privateKeysCachedLocally.selfSigningKey = true ∧
      c.crossSigningStatus.privateKeysCachedLocally.userSigningKey = true) := by
  obtain ⟨sk, ⟨⟨mk, ssk, usk⟩⟩⟩ := c
  cases sk <;> cases mk <;> cases ssk <;> cases usk <;>
    simp [checkEncryption]

/-- Witness for C1: with no backup key the check resolves to `missing_backup`
and only the backup probe is performed; a fully cached crypto resolves to
`good`. -/
theorem recovery_status_resolution_witness :
    (checkEncryption (some ⟨none, ⟨⟨true, true, true⟩⟩⟩)).1 =
        some RecoveryState.missing_backup ∧
    (checkEncryption (some ⟨none, ⟨⟨true, true, true⟩⟩⟩)).2 =
        [CryptoCall.getSessionBackupPrivateKey] ∧
    (checkEncryption (some ⟨some [7], ⟨⟨true, true, true⟩⟩⟩)).1 =
        some RecoveryState.good :=
  ⟨(recovery_status_resolution ⟨none, ⟨⟨true, true, true⟩⟩⟩).1.mpr rfl,
    (recovery_status_resolution ⟨none, ⟨⟨true, true, true⟩⟩⟩).2.1 rfl,
    (recovery_status_resolution ⟨some [7], ⟨⟨true, true, true⟩⟩⟩).2.2.2.mpr
      (by exact ⟨rfl, rfl, rfl, rfl⟩)⟩

/-- C5: when `matrixClient.getCrypto()` yields no crypto collaborator, the
check performs no external calls and makes no state transition, so the panel
state after mount remains `loading`. -/
theorem recovery_check_no_crypto_noop :
    checkEncryption none = (none, []) ∧
    recoveryPanelStateAfterMount none = RecoveryState.loading :=
  ⟨rfl, rfl⟩

/-- C2: after any user input in the confirm state, the submit control is
enabled exactly when the trimmed input equals the generated recovery key, and
disabled exactly when it does not. -/
theorem key_form_submit_gating (filledKey recoveryKey : String) :
    (keyFormSubmitDisabledAfterInput filledKey recoveryKey = false ↔
      jsTrim filledKey = recoveryKey) ∧
    (keyFormSubmitDisabledAfterInput filledKey recoveryKey = true ↔
      jsTrim filledKey ≠ recoveryKey) := by
  constructor <;>
    simp [keyFormSubmitDisabledAfterInput, keyFormSubmitDisabled, keyFormIsKeyValid]

/-- Witness for C2: whitespace-padded re-entry of the key enables the control;
a wrong key leaves it disabled. -/
theorem key_form_submit_gating_witness :
    keyFormSubmitDisabledAfterInput " EsTc 1234 " "EsTc 1234" = false ∧
    keyFormSubmitDisabledAfterInput "EsTc 9999" "EsTc 1234" = true :=
  ⟨(key_form_submit_gating " EsTc 1234 " "EsTc 1234").1.mpr (by decide),
    (key_form_submit_gating "EsTc 9999" "EsTc 1234").2.mpr (by decide)⟩

/-- C3: the wizard starts in `inform_user` in the setup flow and in
`save_key_change_flow` in the change flow (skipping the introductory
screen). -/
theorem wizard_initial_state :
    initialWizardState true = WizardState.inform_user ∧
    initialWizardState false = WizardState.save_key_change_flow :=
  ⟨rfl, rfl⟩

/-- C4: with the crypto collaborator available, a failing bootstrap during the
confirm-state submit logs the error, does not invoke the finish callback and
leaves the wizard state unchanged on `confirm`; a succeeding bootstrap invokes
the finish callback. -/
theorem confirm_submit_failure_handling :
    wizardStep WizardState.confirm (WizardEvent.submit true false) =
      (WizardState.confirm, [SubmitAction.bootstrapSecretStorage, SubmitAction.logError]) ∧
    SubmitAction.callOnFinish ∉
      (wizardStep WizardState.confirm (WizardEvent.submit true false)).2 ∧
    SubmitAction.callOnFinish ∈
      (wizardStep WizardState.confirm (WizardEvent.submit true true)).2 := by
  decide

/-- C10: with the crypto collaborator unavailable at submit time, the handler
invokes the finish callback immediately and performs no bootstrap call. -/
theorem confirm_submit_no_crypto (bs : Bool) :
    (wizardStep WizardState.confirm (WizardEvent.submit false bs)).2 =
      [SubmitAction.callOnFinish] ∧
    SubmitAction.bootstrapSecretStorage ∉
      (wizardStep WizardState.confirm (WizardEvent.submit false bs)).2 := by
  cases bs <;> decide

/-- C6: starting a recording when device enumeration throws, returns no device
map, or returns zero audio-input devices shows an error dialog and aborts:
no recording session is requested from the store and no recorder is set. -/
theorem record_start_no_device_aborts (startSucceeds : Bool) :
    (onRecordStartEndClick false DevicesOutcome.threw startSucceeds =
      { stoppedExistingRecorder := false, dialog := some DialogKind.unableToAccessMicrophone
        startRecordingRequested := false, recorderSet := false, disposeRequested := false }) ∧
    (onRecordStartEndClick false (DevicesOutcome.got none) startSucceeds =
      { stoppedExistingRecorder := false, dialog := some DialogKind.noMicrophoneFound
        startRecordingRequested := false, recorderSet := false, disposeRequested := false }) ∧
    (onRecordStartEndClick false (DevicesOutcome.got (some 0)) startSucceeds =
      { stoppedExistingRecorder := false, dialog := some DialogKind.noMicrophoneFound
        startRecordingRequested := false, recorderSet := false, disposeRequested := false }) := by
  cases startSucceeds <;> decide

/-- C7: with an active recorder, the send trace is always a prefix of
stop, upload, message send, dispose — so the stop strictly precedes the
upload and the upload strictly precedes the message send — and whenever the
message send happens the session disposal follows it. -/
theorem send_operation_order (stopSucceeds uploadSucceeds : Bool) :
    (sendTrace true stopSucceeds uploadSucceeds).isPrefixOf
      [SendOp.stopRecorder, SendOp.uploadMedia, SendOp.sendMessage,
        SendOp.disposeRecording] = true ∧
    (SendOp.sendMessage ∈ sendTrace true stopSucceeds uploadSucceeds →
      sendTrace true stopSucceeds uploadSucceeds =
        [SendOp.stopRecorder, SendOp.uploadMedia, SendOp.sendMessage,
          SendOp.disposeRecording]) := by
  cases stopSucceeds <;> cases uploadSucceeds <;> decide

/-- Witness for C7: a fully successful send performs exactly stop, upload,
message send, dispose, in that order. -/
theorem send_operation_order_witness :
    SendOp.sendMessage ∈ sendTrace true true true ∧
    sendTrace true true true =
      [SendOp.stopRecorder, SendOp.uploadMedia, SendOp.sendMessage,
        SendOp.disposeRecording] :=
  ⟨by decide, (send_operation_order true true).2 (by decide)⟩

/-- Helper: a key-holding wizard component never changes its memoised key or
its generation count, over any event sequence. -/
theorem foldl_wizardComponentStep_frame (es : List WizardEvent) :
    ∀ c : WizardComponent,
      (es.foldl wizardComponentStep c).recoveryKey = c.recoveryKey ∧
      (es.foldl wizardComponentStep c).generateKeyCalls = c.generateKeyCalls := by
  induction es with
  | nil => intro c; exact ⟨rfl, rfl⟩
  | cons e rest ih =>
    intro c
    simp only [List.foldl_cons]
    exact ⟨(ih (wizardComponentStep c e)).1, (ih (wizardComponentStep c e)).2⟩

/-- C9: within one activation of the wizard, the recovery key is generated
exactly once and every sequence of state transitions leaves the generated key
unchanged. -/
theorem wizard_key_generated_once_and_stable (isSetupFlow : Bool) (generatedKey : String)
    (es : List WizardEvent) :
    (es.foldl wizardComponentStep (activateWizard isSetupFlow generatedKey)).recoveryKey =
      generatedKey ∧
    (es.foldl wizardComponentStep (activateWizard isSetupFlow generatedKey)).generateKeyCalls =
      1 :=
  ⟨(foldl_wizardComponentStep_frame es (activateWizard isSetupFlow generatedKey)).1,
    (foldl_wizardComponentStep_frame es (activateWizard isSetupFlow generatedKey)).2⟩

/-- Helper: once a flush is scheduled, further updates only overwrite the
instance fields; the last update of the burst wins and no further frame is
queued. -/
theorem applyUpdates_scheduled {W T : Type} (ups : List (List W × T)) :
    ∀ s : VoiceTileBuffer W T, s.scheduledAnimationFrame = true →
      ∀ (w : List W) (t : T),
        applyUpdates s (ups ++ [(w, t)]) = { s with waveform := w, seconds := t } := by
  induction ups with
  | nil =>
    intro s h w t
    simp [applyUpdates, onRecordingUpdate, h]
  | cons u rest ih =>
    intro s h w t
    have h2 : (onRecordingUpdate s u.1 u.2).scheduledAnimationFrame = true := by
      simp [onRecordingUpdate, h]
    have hstep : applyUpdates s ((u :: rest) ++ [(w, t)]) =
        applyUpdates (onRecordingUpdate s u.1 u.2) (rest ++ [(w, t)]) := rfl
    rw [hstep, ih (onRecordingUpdate s u.1 u.2) h2 w t]
    simp [onRecordingUpdate, h]

/-- C8: for any burst of waveform/time updates delivered within one
display-refresh interval from an idle buffer, exactly one animation-frame
callback is scheduled (the pending-flush flag set by the first update
suppresses scheduling for all later updates), and the single flush at the
frame boundary performs one view-state update using the most recently
received waveform and time values. -/
theorem waveform_update_coalescing {W T : Type} (s0 : VoiceTileBuffer W T)
    (ups : List (List W × T)) (w : List W) (t : T)
    (h0 : s0.scheduledAnimationFrame = false) (h1 : s0.pendingFrames = 0) :
    applyUpdates s0 (ups ++ [(w, t)]) =
      { waveform := w, seconds := t, scheduledAnimationFrame := true,
        pendingFrames := 1, flushedStates := s0.flushedStates } ∧
    fireAnimationFrame (applyUpdates s0 (ups ++ [(w, t)])) =
      { waveform := w, seconds := t, scheduledAnimationFrame := false,
        pendingFrames := 0, flushedStates := s0.flushedStates ++ [(w, t)] } := by
  obtain ⟨wv, sec, sch, pf, fl⟩ := s0
  simp only at h0 h1
  subst h0; subst h1
  have hfirst : ∀ (a : List W) (b : T),
      onRecordingUpdate (VoiceTileBuffer.mk wv sec false 0 fl) a b =
        { waveform := a, seconds := b, scheduledAnimationFrame := true,
          pendingFrames := 1, flushedStates := fl } := by
    intro a b
    simp [onRecordingUpdate]
  cases ups with
  | nil =>
    have h1 : applyUpdates (VoiceTileBuffer.mk wv sec false 0 fl) ([] ++ [(w, t)]) =
        { waveform := w, seconds := t, scheduledAnimationFrame := true,
          pendingFrames := 1, flushedStates := fl } := hfirst w t
    refine ⟨h1, ?_⟩
    rw [h1]
    simp [fireAnimationFrame]
  | cons u rest =>
    have hsch : (onRecordingUpdate (VoiceTileBuffer.mk wv sec false 0 fl)
        u.1 u.2).scheduledAnimationFrame = true := by
      rw [hfirst u.1 u.2]
    have hmain : applyUpdates (VoiceTileBuffer.mk wv sec false 0 fl)
        ((u :: rest) ++ [(w, t)]) =
        { waveform := w, seconds := t, scheduledAnimationFrame := true,
          pendingFrames := 1, flushedStates := fl } := by
      have hs : applyUpdates (VoiceTileBuffer.mk wv sec false 0 fl) ((u :: rest) ++ [(w, t)]) =
          applyUpdates (onRecordingUpdate (VoiceTileBuffer.mk wv sec false 0 fl) u.1 u.2)
            (rest ++ [(w, t)]) := rfl
      rw [hs, applyUpdates_scheduled rest _ hsch w t, hfirst u.1 u.2]
    refine ⟨hmain, ?_⟩
    rw [hmain]
    simp [fireAnimationFrame]

/-- Witness for C8: two updates in one refresh interval from an idle buffer
queue a single frame and flush once, with the second update's values. -/
theorem waveform_update_coalescing_witness :
    applyUpdates (VoiceTileBuffer.mk ([] : List Nat) (0 : Nat) false 0 [])
        [([3], 1), ([5], 2)] =
      VoiceTileBuffer.mk [5] 2 true 1 [] ∧
    fireAnimationFrame (applyUpdates (VoiceTileBuffer.mk ([] : List Nat) (0 : Nat) false 0 [])
        [([3], 1), ([5], 2)]) =
      VoiceTileBuffer.mk [5] 2 false 0 [([5], 2)] :=
  waveform_update_coalescing (VoiceTileBuffer.mk ([] : List Nat) (0 : Nat) false 0 [])
    [([3], 1)] [5] 2 rfl rfl

end ElementWeb
